import Mathlib

/-
Verification of src/app/api/src/functions/auth.ts (Rutam21/shepherd).

The file configures a RedwoodJS dbAuth handler: four option objects
(forgotPassword, login, resetPassword, signup) holding callback closures,
plus cookie attributes and expiry constants.  We embed each callback as a
pure Lean function.  Database writes are modelled by explicit state passing
over a `DbState`; the opaque outbound collaborators (email service,
subscription service, analytics client) are modelled by recording each call
and its payload in an effect trace, while the value a call would eventually
produce is supplied by the environment and, as in the source, discarded.
-/

namespace Shepherd

/-- The extra signup attributes interface (auth.ts lines 18-21):
`name: string; plan?: string`. -/
structure UserAttributes where
  name : String
  plan : Option String
deriving DecidableEq

/-- Modelled from the spec: the persisted Account record created by
`db.account.create` (the Prisma model itself is outside src/); it holds an
identifier and an API key. -/
structure Account where
  id : Nat
  apiKey : String
deriving DecidableEq

/-- Modelled from the spec: the persisted User record created by
`db.user.create` (the Prisma model itself is outside src/); fields are the
ones written by the signup handler (auth.ts lines 140-149). -/
structure User where
  id : Nat
  email : String
  hashedPassword : String
  salt : String
  name : Option String
  type : String
  accountId : Nat
deriving DecidableEq

/-- Modelled from the spec: the visible database state, a table of accounts
and a table of users, with fresh-identifier counters standing in for the
database assigning record ids. -/
structure DbState where
  accounts : List Account
  users : List User
  nextAccountId : Nat
  nextUserId : Nat
deriving DecidableEq

/-- The environment of one invocation: the `process.env.NODE_ENV` string,
the string produced by `generateAPIKey(32)` for this invocation
(`generateAPIKey` lives in src/lib/utils, outside src/ — modelled from the
spec as an opaque freshly generated key), and whether each awaited database
create succeeds (a failing create throws out of the handler). -/
structure Env where
  nodeEnv : String
  generatedApiKey : String
  accountCreateOk : Bool
  userCreateOk : Bool
deriving DecidableEq

/-- The eventual outcome (fulfilled or rejected) of each fire-and-forget
side-effect promise issued on the signup path.  The source never awaits
these promises, so the handler receives and discards them. -/
structure SideEffectOutcomes where
  welcomeEmail : Bool
  subscription : Bool
  analytics : Bool
deriving DecidableEq

/-- One outbound collaborator call, recorded with the payload the call site
passes (auth.ts lines 37-43, 158-186). -/
inductive Effect where
  | sendResetEmail (toAddr subject resetLink : String)
  | sendWelcomeEmail (toAddr subject : String)
  | createSubscription (status type : String) (userId : Nat)
  | phCapture (distinctId event email : String) (name : Option String)
      (plan : String) (accountGroup : Nat)
deriving DecidableEq

/-- The string values carried in the payload of an effect call, used to make
precise the phrase "a call carrying the submitted email". -/
def effectStrings : Effect → List String
  | .sendResetEmail toAddr subject resetLink => [toAddr, subject, resetLink]
  | .sendWelcomeEmail toAddr subject => [toAddr, subject]
  | .createSubscription status type _userId => [status, type]
  | .phCapture distinctId event email name plan _accountGroup =>
      [distinctId, event, email, plan] ++ name.toList

/-- Recognises a subscription-creation call in a trace. -/
def isCreateSubscription : Effect → Bool
  | .createSubscription _ _ _ => true
  | _ => false

/-- Recognises a welcome-email call in a trace. -/
def isSendWelcomeEmail : Effect → Bool
  | .sendWelcomeEmail _ _ => true
  | _ => false

/-- Recognises an analytics-capture call in a trace. -/
def isPhCapture : Effect → Bool
  | .phCapture _ _ _ _ _ _ => true
  | _ => false

/-- Modelled from the spec: `db.account.create` (Prisma client, outside
src/) inserts one account record with the supplied data and a fresh id and
returns the created record; on failure the awaited promise rejects. -/
def dbAccountCreate (env : Env) (db : DbState) :
    Except String (Account × DbState) :=
  if env.accountCreateOk then
    let acct : Account := { id := db.nextAccountId, apiKey := env.generatedApiKey }
    .ok (acct, { db with
      accounts := db.accounts ++ [acct]
      nextAccountId := db.nextAccountId + 1 })
  else
    .error "account create failed"

/-- Modelled from the spec: `db.user.create` (Prisma client, outside src/)
inserts one user record with the supplied data and a fresh id and returns
the created record; on failure the awaited promise rejects. -/
def dbUserCreate (env : Env) (email hashedPassword salt : String)
    (name : Option String) (type : String) (accountId : Nat) (db : DbState) :
    Except String (User × DbState) :=
  if env.userCreateOk then
    let u : User :=
      { id := db.nextUserId
        email := email
        hashedPassword := hashedPassword
        salt := salt
        name := name
        type := type
        accountId := accountId }
    .ok (u, { db with
      users := db.users ++ [u]
      nextUserId := db.nextUserId + 1 })
  else
    .error "user create failed"

/-- Modelled from the spec: `sendWelcomeEmail` from src/services/emails
(outside src/), an opaque call whose payload we record and whose eventual
promise outcome comes from the environment. -/
def sendWelcomeEmail (o : SideEffectOutcomes) (toAddr subject : String) :
    Bool × Effect :=
  (o.welcomeEmail, .sendWelcomeEmail toAddr subject)

/-- Modelled from the spec: `createSubscription` from
src/services/subscriptions (outside src/), an opaque call whose payload we
record and whose eventual promise outcome comes from the environment. -/
def createSubscription (o : SideEffectOutcomes) (status type : String)
    (userId : Nat) : Bool × Effect :=
  (o.subscription, .createSubscription status type userId)

/-- Modelled from the spec: `phDefaultClient.capture` (posthog-node, outside
src/), an opaque call whose payload we record and whose eventual outcome
comes from the environment. -/
def phCapture (o : SideEffectOutcomes) (distinctId event email : String)
    (name : Option String) (plan : String) (accountGroup : Nat) :
    Bool × Effect :=
  (o.analytics, .phCapture distinctId event email name plan accountGroup)

/-- Modelled from the spec: `sendResetEmail` from src/services/emails
(outside src/), an opaque call whose payload we record. -/
def sendResetEmail (toAddr subject resetLink : String) : Effect :=
  .sendResetEmail toAddr subject resetLink

/-- A JavaScript object value is always truthy, so the `if (newUser)` test
on the record returned by `db.user.create` always takes the then branch. -/
def jsTruthy (_u : User) : Bool :=
  true

/-- The environment-dependent Chargebee plan identifier (auth.ts lines
151-155). -/
def userPlan (nodeEnv : String) : String :=
  if nodeEnv == "development" then "Alpha-USD-Monthly" else "alpha-usd-monthly"

/-- The signup handler (auth.ts lines 133-199): create an account with a
freshly generated API key, create a user linking to it, then, if the user
record is truthy, fire the welcome email, the subscription creation and the
analytics capture without awaiting them, and return the created user.  The
result is the handler's return value (or the propagated rejection of an
awaited create), the database state after the invocation, and the trace of
outbound calls in issue order. -/
def signupHandler (env : Env) (o : SideEffectOutcomes)
    (username hashedPassword salt : String)
    (userAttributes : Option UserAttributes) (db : DbState) :
    Except String (Option User) × DbState × List Effect :=
  match dbAccountCreate env db with
  | .error e => (.error e, db, [])
  | .ok (newAccount, db1) =>
    match dbUserCreate env username hashedPassword salt
        (userAttributes.map UserAttributes.name) "OWNER" newAccount.id db1 with
    | .error e => (.error e, db1, [])
    | .ok (newUser, db2) =>
      let plan := userPlan env.nodeEnv
      if jsTruthy newUser then
        let w := sendWelcomeEmail o username "Welcome to Shepherd Pro"
        let s := createSubscription o "IN_TRIAL" plan newUser.id
        let c := phCapture o ("shepherd-user-" ++ toString newUser.id)
          "Shepherd Signup" username (userAttributes.map UserAttributes.name)
          plan newAccount.id
        (.ok (some newUser), db2, [w.2, s.2, c.2])
      else
        (.ok none, db2, [])

/-- The forgot-password handler (auth.ts lines 32-46): send one reset email
to the user's address with a link built from the environment-dependent base
URL and the reset token, and return the user unchanged. -/
def forgotPasswordHandler (nodeEnv : String) (user : User)
    (resetToken : String) : User × List Effect :=
  let url := if nodeEnv == "development" then "http://localhost:8910"
    else "https://shepherdpro.com"
  (user,
    [sendResetEmail user.email "Reset your password"
      (url ++ "/reset-password?resetToken=" ++ resetToken)])

/-- How long the resetToken is valid for, in seconds (auth.ts line 49). -/
def forgotPasswordExpires : Nat :=
  60 * 60 * 24

/-- The login handler (auth.ts lines 73-75): return the matched user. -/
def loginHandler (user : User) : User :=
  user

/-- How long a user will remain logged in, in seconds (auth.ts line 87). -/
def loginExpires : Nat :=
  60 * 60 * 24 * 365 * 10

/-- The reset-password handler (auth.ts lines 95-97): return true. -/
def resetPasswordHandler (_user : User) : Bool :=
  true

/-- `allowReusedPassword` in the reset-password options (auth.ts line 100). -/
def allowReusedPassword : Bool :=
  true

/-- The static error strings of the reset-password options (auth.ts lines
102-111). -/
structure ResetPasswordErrors where
  resetTokenExpired : String
  resetTokenInvalid : String
  resetTokenRequired : String
  reusedPassword : String
deriving DecidableEq

/-- The declared reset-password error strings (auth.ts lines 102-111). -/
def resetPasswordErrors : ResetPasswordErrors :=
  { resetTokenExpired := "resetToken is expired"
    resetTokenInvalid := "resetToken is invalid"
    resetTokenRequired := "resetToken is required"
    reusedPassword := "Must choose a new password" }

/-- The password-validation callback (auth.ts lines 204-206): return true. -/
def passwordValidation (_password : String) : Bool :=
  true

/-- The session cookie attributes (auth.ts lines 243-253). -/
structure CookieAttributes where
  HttpOnly : Bool
  Path : String
  SameSite : String
  Secure : Bool
deriving DecidableEq

/-- The cookie attributes as a function of `process.env.NODE_ENV`
(auth.ts lines 243-253). -/
def cookieAttributes (nodeEnv : String) : CookieAttributes :=
  { HttpOnly := true
    Path := "/"
    SameSite := "Strict"
    Secure := if nodeEnv != "development" then true else false }

/-- A concrete development environment where both creates succeed. -/
def envDev : Env :=
  { nodeEnv := "development", generatedApiKey := "key-123"
    accountCreateOk := true, userCreateOk := true }

/-- A concrete production environment where both creates succeed. -/
def envProd : Env :=
  { nodeEnv := "production", generatedApiKey := "key-456"
    accountCreateOk := true, userCreateOk := true }

/-- Outcomes in which every fire-and-forget promise fulfills. -/
def oAllOk : SideEffectOutcomes :=
  { welcomeEmail := true, subscription := true, analytics := true }

/-- Outcomes in which every fire-and-forget promise rejects. -/
def oAllFail : SideEffectOutcomes :=
  { welcomeEmail := false, subscription := false, analytics := false }

/-- An empty database whose counters start at 1. -/
def db0 : DbState :=
  { accounts := [], users := [], nextAccountId := 1, nextUserId := 1 }


/-- C1 counterexample: at a concrete signup invocation the single created
user record has role/type "OWNER", not "owner" as the claim states. -/
theorem signup_owner_type_counterexample :
    (signupHandler envDev oAllOk "alice@example.com" "hp" "s1" none db0).2.1.users.map User.type
      = ["OWNER"]
    ∧ ("OWNER" : String) ≠ "owner" := by
  decide

/-- C1 (amended): a signup invocation with a fresh username, whose account
and user creates succeed, appends exactly one account record carrying the
freshly generated API key and then exactly one user record whose email is
the submitted username, whose hashedPassword and salt are the submitted
values, whose role/type is the constant "OWNER" (uppercase, not "owner"),
and whose account reference equals the identifier of the account just
created. -/
theorem signup_creates_one_account_and_one_user (env : Env) (o : SideEffectOutcomes)
    (username hashedPassword salt : String) (attrs : Option UserAttributes)
    (db : DbState) (hA : env.accountCreateOk = true) (hU : env.userCreateOk = true) :
    (signupHandler env o username hashedPassword salt attrs db).2.1.accounts
        = db.accounts ++ [{ id := db.nextAccountId, apiKey := env.generatedApiKey }]
    ∧ (signupHandler env o username hashedPassword salt attrs db).2.1.users
        = db.users ++ [{ id := db.nextUserId
                         email := username
                         hashedPassword := hashedPassword
                         salt := salt
                         name := attrs.map UserAttributes.name
                         type := "OWNER"
                         accountId := db.nextAccountId }] := by
  simp [signupHandler, dbAccountCreate, dbUserCreate, jsTruthy, hA, hU,
    sendWelcomeEmail, createSubscription, phCapture]

/-- C1 witness: the amended theorem applied at a concrete invocation. -/
theorem signup_creates_one_account_and_one_user_witness :
    (signupHandler envProd oAllOk "alice@example.com" "hp1" "s1"
        (some { name := "Alice", plan := some "pro" }) db0).2.1.accounts
      = [{ id := 1, apiKey := "key-456" }]
    ∧ (signupHandler envProd oAllOk "alice@example.com" "hp1" "s1"
        (some { name := "Alice", plan := some "pro" }) db0).2.1.users
      = [{ id := 1
           email := "alice@example.com"
           hashedPassword := "hp1"
           salt := "s1"
           name := some "Alice"
           type := "OWNER"
           accountId := 1 }] :=
  signup_creates_one_account_and_one_user envProd oAllOk "alice@example.com" "hp1" "s1"
    (some { name := "Alice", plan := some "pro" }) db0 rfl rfl

/-- C2 counterexample: at a concrete signup invocation the unique
subscription-creation call carries the status, the plan identifier and the
created user id, but not the submitted email, refuting "each carrying the
submitted email". -/
theorem signup_subscription_no_email_counterexample :
    (signupHandler envProd oAllOk "alice@example.com" "hp" "s1" none db0).2.2.filter
        isCreateSubscription
      = [Effect.createSubscription "IN_TRIAL" "alpha-usd-monthly" 1]
    ∧ "alice@example.com" ∉ effectStrings
        (Effect.createSubscription "IN_TRIAL" "alpha-usd-monthly" 1) := by
  decide

/-- C2 (amended): a signup invocation whose user creation succeeds issues
exactly one welcome-email call and exactly one analytics-capture call, each
carrying the submitted email, and exactly one subscription-creation call
carrying the created user identifier (not the email), in that order, and
returns the created user. -/
theorem signup_triggers_welcome_subscription_and_capture (env : Env)
    (o : SideEffectOutcomes) (username hashedPassword salt : String)
    (attrs : Option UserAttributes) (db : DbState)
    (hA : env.accountCreateOk = true) (hU : env.userCreateOk = true) :
    (signupHandler env o username hashedPassword salt attrs db).2.2
        = [Effect.sendWelcomeEmail username "Welcome to Shepherd Pro",
           Effect.createSubscription "IN_TRIAL" (userPlan env.nodeEnv) db.nextUserId,
           Effect.phCapture ("shepherd-user-" ++ toString db.nextUserId) "Shepherd Signup"
             username (attrs.map UserAttributes.name) (userPlan env.nodeEnv) db.nextAccountId]
    ∧ (signupHandler env o username hashedPassword salt attrs db).1
        = Except.ok (some { id := db.nextUserId
                            email := username
                            hashedPassword := hashedPassword
                            salt := salt
                            name := attrs.map UserAttributes.name
                            type := "OWNER"
                            accountId := db.nextAccountId })
    ∧ username ∈ effectStrings (Effect.sendWelcomeEmail username "Welcome to Shepherd Pro")
    ∧ username ∈ effectStrings
        (Effect.phCapture ("shepherd-user-" ++ toString db.nextUserId) "Shepherd Signup"
          username (attrs.map UserAttributes.name) (userPlan env.nodeEnv) db.nextAccountId) := by
  refine ⟨?_, ?_, ?_, ?_⟩ <;>
    simp [signupHandler, dbAccountCreate, dbUserCreate, jsTruthy, hA, hU,
      sendWelcomeEmail, createSubscription, phCapture, effectStrings]

/-- C2 witness: the amended theorem applied at a concrete invocation. -/
theorem signup_triggers_welcome_subscription_and_capture_witness :
    (signupHandler envDev oAllOk "carol@example.com" "hp3" "s3" none db0).2.2
        = [Effect.sendWelcomeEmail "carol@example.com" "Welcome to Shepherd Pro",
           Effect.createSubscription "IN_TRIAL" "Alpha-USD-Monthly" 1,
           Effect.phCapture "shepherd-user-1" "Shepherd Signup"
             "carol@example.com" none "Alpha-USD-Monthly" 1]
    ∧ (signupHandler envDev oAllOk "carol@example.com" "hp3" "s3" none db0).1
        = Except.ok (some { id := 1
                            email := "carol@example.com"
                            hashedPassword := "hp3"
                            salt := "s3"
                            name := none
                            type := "OWNER"
                            accountId := 1 })
    ∧ "carol@example.com" ∈ effectStrings
        (Effect.sendWelcomeEmail "carol@example.com" "Welcome to Shepherd Pro")
    ∧ "carol@example.com" ∈ effectStrings
        (Effect.phCapture "shepherd-user-1" "Shepherd Signup"
          "carol@example.com" none "Alpha-USD-Monthly" 1) :=
  signup_triggers_welcome_subscription_and_capture envDev oAllOk
    "carol@example.com" "hp3" "s3" none db0 rfl rfl

/-- C3: the whole observable result of a successful signup (return value,
database state and issued calls) is the same for any two assignments of
outcomes to the fire-and-forget side-effect promises; the handler still
returns the created user, and the account and user records written before
the side effects remain in the final state (no rollback). -/
theorem signup_result_independent_of_side_effects (env : Env)
    (o1 o2 : SideEffectOutcomes) (username hashedPassword salt : String)
    (attrs : Option UserAttributes) (db : DbState)
    (hA : env.accountCreateOk = true) (hU : env.userCreateOk = true) :
    signupHandler env o1 username hashedPassword salt attrs db
        = signupHandler env o2 username hashedPassword salt attrs db
    ∧ (signupHandler env o1 username hashedPassword salt attrs db).1
        = Except.ok (some { id := db.nextUserId
                            email := username
                            hashedPassword := hashedPassword
                            salt := salt
                            name := attrs.map UserAttributes.name
                            type := "OWNER"
                            accountId := db.nextAccountId })
    ∧ (signupHandler env o1 username hashedPassword salt attrs db).2.1.accounts
        = db.accounts ++ [{ id := db.nextAccountId, apiKey := env.generatedApiKey }]
    ∧ (signupHandler env o1 username hashedPassword salt attrs db).2.1.users
        = db.users ++ [{ id := db.nextUserId
                         email := username
                         hashedPassword := hashedPassword
                         salt := salt
                         name := attrs.map UserAttributes.name
                         type := "OWNER"
                         accountId := db.nextAccountId }] := by
  refine ⟨rfl, ?_, ?_, ?_⟩ <;>
    simp [signupHandler, dbAccountCreate, dbUserCreate, jsTruthy, hA, hU,
      sendWelcomeEmail, createSubscription, phCapture]

/-- C3 witness: the theorem applied at a concrete invocation, comparing the
all-fulfilled and all-rejected outcome assignments. -/
theorem signup_result_independent_of_side_effects_witness :
    signupHandler envDev oAllOk "bob@example.com" "hp2" "s2" none db0
        = signupHandler envDev oAllFail "bob@example.com" "hp2" "s2" none db0
    ∧ (signupHandler envDev oAllOk "bob@example.com" "hp2" "s2" none db0).1
        = Except.ok (some { id := 1
                            email := "bob@example.com"
                            hashedPassword := "hp2"
                            salt := "s2"
                            name := none
                            type := "OWNER"
                            accountId := 1 })
    ∧ (signupHandler envDev oAllOk "bob@example.com" "hp2" "s2" none db0).2.1.accounts
        = [{ id := 1, apiKey := "key-123" }]
    ∧ (signupHandler envDev oAllOk "bob@example.com" "hp2" "s2" none db0).2.1.users
        = [{ id := 1
             email := "bob@example.com"
             hashedPassword := "hp2"
             salt := "s2"
             name := none
             type := "OWNER"
             accountId := 1 }] :=
  signup_result_independent_of_side_effects envDev oAllOk oAllFail
    "bob@example.com" "hp2" "s2" none db0 rfl rfl

/-- C4: the forgot-password handler returns the user it was passed,
unchanged, and issues exactly one reset-email call addressed to the user
email whose link is the environment-dependent base URL followed by
"/reset-password?resetToken=" and the supplied token. -/
theorem forgot_password_returns_user_and_sends_reset_email
    (nodeEnv : String) (user : User) (resetToken : String) :
    (forgotPasswordHandler nodeEnv user resetToken).1 = user
    ∧ (forgotPasswordHandler nodeEnv user resetToken).2
        = [Effect.sendResetEmail user.email "Reset your password"
            ((if nodeEnv == "development" then "http://localhost:8910"
              else "https://shepherdpro.com")
              ++ "/reset-password?resetToken=" ++ resetToken)] :=
  ⟨rfl, rfl⟩

/-- C5: the reset-password handler returns true for every input user; the
configuration sets allowReusedPassword to true even though a reused-password
error string is declared. -/
theorem reset_password_always_true_and_reuse_allowed (u : User) :
    resetPasswordHandler u = true
    ∧ allowReusedPassword = true
    ∧ resetPasswordErrors.reusedPassword = "Must choose a new password" :=
  ⟨rfl, rfl, rfl⟩

/-- C6: the password-validation callback returns true for every input
string, the empty string included. -/
theorem password_validation_always_true (p : String) :
    passwordValidation p = true ∧ passwordValidation "" = true :=
  ⟨rfl, rfl⟩

/-- C7: the login handler is the identity on users. -/
theorem login_handler_identity (u : User) : loginHandler u = u :=
  rfl

/-- C8: the cookie attributes always set HttpOnly to true, Path to "/" and
SameSite to "Strict", and set Secure to true exactly when NODE_ENV is not
"development". -/
theorem cookie_attributes_contract (nodeEnv : String) :
    (cookieAttributes nodeEnv).HttpOnly = true
    ∧ (cookieAttributes nodeEnv).Path = "/"
    ∧ (cookieAttributes nodeEnv).SameSite = "Strict"
    ∧ ((cookieAttributes nodeEnv).Secure = true ↔ nodeEnv ≠ "development") := by
  refine ⟨rfl, rfl, rfl, ?_⟩
  simp [cookieAttributes]

/-- C9: the reset-token validity is 86400 seconds, exactly 24 hours, and
the login session expiry is 315360000 seconds, exactly 10 years of
365 days. -/
theorem expiry_constants :
    forgotPasswordExpires = 86400
    ∧ forgotPasswordExpires = 24 * 60 * 60
    ∧ loginExpires = 315360000
    ∧ loginExpires = 10 * (365 * (24 * (60 * 60))) := by
  decide

/-- C10: two signup invocations differing only in the submitted plan
attribute have identical observable results; the unique subscription call
and the unique capture call both carry the plan identifier userPlan, which
is "Alpha-USD-Monthly" when NODE_ENV is "development" and
"alpha-usd-monthly" otherwise, independent of the submitted plan. -/
theorem signup_plan_attribute_never_read (env : Env) (o : SideEffectOutcomes)
    (username hashedPassword salt nm : String) (plan1 plan2 : Option String)
    (db : DbState) (hA : env.accountCreateOk = true) (hU : env.userCreateOk = true) :
    signupHandler env o username hashedPassword salt (some { name := nm, plan := plan1 }) db
        = signupHandler env o username hashedPassword salt (some { name := nm, plan := plan2 }) db
    ∧ (signupHandler env o username hashedPassword salt
          (some { name := nm, plan := plan1 }) db).2.2.filter isCreateSubscription
        = [Effect.createSubscription "IN_TRIAL" (userPlan env.nodeEnv) db.nextUserId]
    ∧ (signupHandler env o username hashedPassword salt
          (some { name := nm, plan := plan1 }) db).2.2.filter isPhCapture
        = [Effect.phCapture ("shepherd-user-" ++ toString db.nextUserId) "Shepherd Signup"
            username (some nm) (userPlan env.nodeEnv) db.nextAccountId]
    ∧ userPlan env.nodeEnv
        = (if env.nodeEnv == "development" then "Alpha-USD-Monthly" else "alpha-usd-monthly") := by
  refine ⟨rfl, ?_, ?_, rfl⟩ <;>
    simp [signupHandler, dbAccountCreate, dbUserCreate, jsTruthy, hA, hU,
      sendWelcomeEmail, createSubscription, phCapture, isCreateSubscription, isPhCapture]

/-- C10 witness: the theorem applied at a concrete invocation, comparing a
submitted plan of some "enterprise" with an absent plan. -/
theorem signup_plan_attribute_never_read_witness :
    signupHandler envProd oAllOk "dora@example.com" "hp4" "s4"
        (some { name := "Dora", plan := some "enterprise" }) db0
      = signupHandler envProd oAllOk "dora@example.com" "hp4" "s4"
        (some { name := "Dora", plan := none }) db0
    ∧ (signupHandler envProd oAllOk "dora@example.com" "hp4" "s4"
          (some { name := "Dora", plan := some "enterprise" }) db0).2.2.filter
          isCreateSubscription
        = [Effect.createSubscription "IN_TRIAL" "alpha-usd-monthly" 1]
    ∧ (signupHandler envProd oAllOk "dora@example.com" "hp4" "s4"
          (some { name := "Dora", plan := some "enterprise" }) db0).2.2.filter isPhCapture
        = [Effect.phCapture "shepherd-user-1" "Shepherd Signup"
            "dora@example.com" (some "Dora") "alpha-usd-monthly" 1]
    ∧ userPlan "production" = "alpha-usd-monthly" :=
  signup_plan_attribute_never_read envProd oAllOk "dora@example.com" "hp4" "s4"
    "Dora" (some "enterprise") none db0 rfl rfl

end Shepherd
